import Mathlib

/-!
Verification of the musicfig core (src/app/lego.py): the Lego Dimensions
portal driver (`Dimensions`) and the tag-driven session state machine
(`Base.startLego` and its helpers).  Python functions are shallowly embedded
as Lean functions; byte values are `Nat` (with explicit bounds where they
matter), floating-point durations are modelled as `ℚ`, side effects are
recorded as explicit effect traces, and Python exceptions are modelled with
`Except`.
-/

namespace Musicfig

/-! ## Portal driver: `Dimensions` -/

/-- Python exceptions that matter for the driver code paths:
`usb.core.USBError`, `usb.core.USBTimeoutError`, the `AttributeError` raised
by attribute access on `None`, and the `IndexError` raised by out-of-range
list indexing. -/
inductive PyExc
  | usbError
  | usbTimeoutError
  | attributeError
  | indexError
deriving DecidableEq

deriving instance DecidableEq for Except

/-- One iteration of the checksum loop of `Dimensions.send_command`
(lego.py lines 76-79): `checksum += word; if checksum >= 256:
checksum -= 256`. -/
def checksum_step (checksum word : Nat) : Nat :=
  let s := checksum + word
  if 256 ≤ s then s - 256 else s

/-- Checksum loop of `Dimensions.send_command` (lego.py lines 75-79),
starting from 0. -/
def send_command_checksum (command : List Nat) : Nat :=
  command.foldl checksum_step 0

/-- Frame built by `Dimensions.send_command` (lego.py lines 81-84):
`message = command + [checksum]`, then `while len(message) < 32:
message.append(0x00)`. -/
def send_command_message (command : List Nat) : List Nat :=
  let message := command ++ [send_command_checksum command]
  message ++ List.replicate (32 - message.length) 0

/-- Model of `self.dev.write(...)` where `self.dev` is an `Option`: attribute
access on `None` raises `AttributeError`; on a live device the write succeeds
and we record the written frame. -/
def devWrite (dev : Option Unit) (message : List Nat) :
    Except PyExc (List Nat) :=
  match dev with
  | none => Except.error PyExc.attributeError
  | some _ => Except.ok message

/-- Model of `Dimensions.send_command` (lego.py lines 74-89).  The result is
the frame actually written (`Except.ok`), the empty write when a
`usb.core.USBError` was caught and swallowed (`Except.ok []` cannot occur for
an `Option Unit` device but the handler is kept to mirror the source), or the
uncaught exception that propagates.  Note the `try` at lines 86-89 catches
only `usb.core.USBError`. -/
def send_command (dev : Option Unit) (command : List Nat) :
    Except PyExc (List Nat) :=
  let message := send_command_message command
  match devWrite dev message with
  | Except.ok written => Except.ok written
  | Except.error PyExc.usbError => Except.ok []
  | Except.error e => Except.error e

/-- Palette entry `self.OFF` of `Base.__init__`. -/
def OFF : List Nat := [0, 0, 0]

/-- Palette entry `self.RED` of `Base.__init__`. -/
def RED : List Nat := [255, 0, 0]

/-- Palette entry `self.GREEN` of `Base.__init__`. -/
def GREEN : List Nat := [0, 255, 0]

/-- Palette entry `self.BLUE` of `Base.__init__`. -/
def BLUE : List Nat := [0, 0, 255]

/-- Palette entry `self.PINK` of `Base.__init__`. -/
def PINK : List Nat := [255, 192, 203]

/-- Palette entry `self.ORANGE` of `Base.__init__`. -/
def ORANGE : List Nat := [255, 165, 0]

/-- Palette entry `self.PURPLE` of `Base.__init__`. -/
def PURPLE : List Nat := [255, 0, 255]

/-- Palette entry `self.LBLUE` of `Base.__init__`. -/
def LBLUE : List Nat := [173, 216, 230]

/-- Palette entry `self.OLIVE` of `Base.__init__`. -/
def OLIVE : List Nat := [128, 128, 0]

/-- Model of `Dimensions.switch_pad` (lego.py lines 91-94): a `send_command`
with opcode `0xc0`. -/
def switch_pad (dev : Option Unit) (pad : Nat) (colour : List Nat) :
    Except PyExc (List Nat) :=
  send_command dev
    ([0x55, 0x06, 0xc0, 0x02, pad] ++ [colour.getD 0 0, colour.getD 1 0, colour.getD 2 0])

/-- Hex digit character for a value below 16, as produced by
`binascii.hexlify` (lowercase). -/
def hexDigit (n : Nat) : Char :=
  if n < 10 then Char.ofNat (48 + n) else Char.ofNat (87 + n)

/-- Two lowercase hex characters of one byte. -/
def hexByte (b : Nat) : List Char :=
  [hexDigit (b / 16), hexDigit (b % 16)]

/-- Model of `binascii.hexlify(bytearray(bs)).decode("utf-8")` as a character
list. -/
def hexlify (bs : List Nat) : List Char :=
  (bs.map hexByte).flatten

/-- Whether `pat` occurs at the head of `l` (used to model how Python
`str.replace` matches its pattern at a position). -/
def leadsWith : List Char → List Char → Bool
  | [], _ => true
  | _ :: _, [] => false
  | p :: ps, c :: cs => p == c && leadsWith ps cs

/-- Worker for `pyReplace`, structurally recursive on a fuel argument that
starts at the length of the scanned list (each step consumes at least one
character and exactly one unit of fuel, so the fuel never runs out). -/
def pyReplaceAux (pat : List Char) : Nat → List Char → List Char
  | _, [] => []
  | 0, l => l
  | Nat.succ fuel, c :: cs =>
    if leadsWith pat (c :: cs) then
      pyReplaceAux pat fuel (List.drop (pat.length - 1) cs)
    else c :: pyReplaceAux pat fuel cs

/-- Model of Python `s.replace(pat, '')` for a non-empty `pat`: scan left to
right; on a match skip the matched characters and continue after them
(non-overlapping), otherwise keep one character and continue. -/
def pyReplace (pat l : List Char) : List Char :=
  pyReplaceAux pat l.length l

/-- Characters of the literal `'000000'` used at lego.py line 118. -/
def zeroGroup : List Char := ['0', '0', '0', '0', '0', '0']

/-- Kind of a decoded tag event. -/
inductive TagEventKind
  | added
  | removed
deriving DecidableEq

/-- Decoded tag event: the `'added:%s:%s' / 'removed:%s:%s'` response string
of `Dimensions.update_nfc`, split into its three fields as done at the top of
the `Base.startLego` loop (lego.py lines 313-315). -/
structure TagEvent where
  kind : TagEventKind
  pad : Nat
  identifier : String
deriving DecidableEq

/-- Frame decoding of `Dimensions.update_nfc` (lego.py lines 110-124) on one
inbound byte list.  A frame is interpreted only if its first byte is `0x56`;
the identifier is `hexlify(bytelist[6:13]).replace('000000','')`; the removal
flag is `bool(bytelist[5])`.  A frame shorter than 6 bytes whose first byte is
`0x56` raises `IndexError` in the source, which the generic handler at lines
131-133 turns into "no event". -/
def update_nfc (bytelist : List Nat) : Option TagEvent :=
  match bytelist with
  | [] => none
  | b0 :: _ =>
    if b0 = 0x56 then
      if 6 ≤ bytelist.length then
        let pad_num := bytelist.getD 2 0
        let uid_bytes := (bytelist.drop 6).take 7
        let identifier := String.mk (pyReplace zeroGroup (hexlify uid_bytes))
        if bytelist.getD 5 0 ≠ 0 then
          some (TagEvent.mk TagEventKind.removed pad_num identifier)
        else
          some (TagEvent.mk TagEventKind.added pad_num identifier)
      else none
    else none

/-- Model of `self.dev.read(0x81, 32, timeout=100)`: on a disabled handle the
attribute access raises `AttributeError`; on a live device the read yields the
frame supplied by the environment (or a timeout / USB error, which we expose
through the same `Except`). -/
def devRead (dev : Option Unit) (outcome : Except PyExc (List Nat)) :
    Except PyExc (List Nat) :=
  match dev with
  | none => Except.error PyExc.attributeError
  | some _ => outcome

/-- Model of the whole of `Dimensions.update_nfc` (lego.py lines 107-133)
including its exception handlers: `USBTimeoutError`, `USBError` and the
generic `Exception` handler all return `None`, so the function never lets an
exception escape. -/
def update_nfc_dev (dev : Option Unit) (outcome : Except PyExc (List Nat)) :
    Option TagEvent :=
  match devRead dev outcome with
  | Except.ok bytelist => update_nfc bytelist
  | Except.error _ => none

/-- Model of `Dimensions.__init__` (lego.py lines 40-45): `init_usb` either
yields a live handle or raises (`ValueError` when the pad is not found, or a
`usb.core.USBError`), in which case the error is logged and `self.dev` is set
to `None`. -/
def Dimensions_init (usb_found : Bool) : Option Unit :=
  if usb_found then some () else none

/-! ## Session state machine: `Base.startLego` and helpers

The mutable module-level globals of lego.py (`current_tag`, `previous_tag`,
`mp3state`, `mp3_duration`, `mp3elapsed`) form the session state; every side
effect of the loop body (pad colours, lightshow start / cancel-and-join,
player and provider calls) is recorded in an explicit effect trace. -/

/-- Session state: the module-level globals of lego.py.  `mp3state` is the
bare Python string (`None`, `'PLAYING'`, `'PAUSED'`, `'STOPPED'`);
`mp3_duration` and `mp3elapsed` are the float globals, modelled as `ℚ`. -/
structure Session where
  current_tag : Option String
  previous_tag : Option String
  mp3state : Option String
  mp3_duration : ℚ
  mp3elapsed : ℚ
deriving DecidableEq

/-- Initial values set at the top of `Base.startLego` (lego.py lines 292-294).
The duration / elapsed globals start at 0. -/
def initialSession : Session :=
  Session.mk none none none 0 0

/-- One binding of the tags configuration: the optional keys of
`tags['identifier'][identifier]` that the dispatch code looks up.  `shuffle`
and `xbox` record key presence (only presence is tested); `position_ms` is
`none` when the key is absent or its value fails `int(...)`. -/
structure Binding where
  playlist : Option String
  shuffle : Bool
  mp3 : Option String
  slack : Option String
  command : Option String
  spotify : Option String
  position_ms : Option Nat
  disney : Option String
  netflix : Option String
  youtube : Option String
  airplay : Option String
  homepod : Option String
  xbox : Bool
  xbox_app : Option String

/-- Binding with every optional key absent. -/
def Binding.empty : Binding :=
  Binding.mk none false none none none none none none none none none none false none

/-- Loaded tags configuration, as consumed by the loop body: the
`tags['identifier']` mapping, the Slack webhook URL, and the resolved
`mp3_dir` (with its trailing slash, lego.py lines 333-336). -/
structure Config where
  bindings : String → Option Binding
  slack_hook : String
  mp3_dir : String

/-- External collaborators and ambient configuration, treated as a pure
oracle: return values of the provider calls made by the loop body, the track
lengths reported by `MP3(...).info.length`, the `glob.glob` result for a
playlist folder, the permutation applied by `random.shuffle`, and the
`lights` toggle read once at startup. -/
structure Env where
  switch_lights : Bool
  spotify_activated : Bool
  spotify_resume_ms : ℚ
  spotify_cast_ms : String → Nat → ℚ
  appletv_activated : Bool
  launch_disney : String → Bool
  launch_netflix : String → Bool
  launch_youtube : String → Bool
  homepod_stream : String → Option String → Bool
  xbox_power_on : Bool
  samsung_configured : Bool
  huesync_configured : Bool
  huesync_switch : Bool
  samsung_switch : Bool
  track_length : String → ℚ
  playlist_files : String → List String
  shuffle_fn : List String → List String

/-- Observable side effects of the loop body, in program order.
`cancelLightshow` is the `lightshowThread.do_run = False; join()` pair;
`startLightshow d` is a call of `Base.startLightshow` with duration argument
`d` milliseconds; the player, Spotify, Apple TV, HomePod, Samsung TV and Xbox
calls are recorded verbatim. -/
inductive Effect
  | switchPad (pad : Nat) (colour : List Nat)
  | flashPad (pad on_length off_length pulse_count : Nat) (colour : List Nat)
  | cancelLightshow
  | startLightshow (duration_ms : ℚ)
  | spotifyPause
  | spotifyResume
  | playerPlay
  | playerPause
  | playerOpen (file : String)
  | playerPlaylist (files : List String)
  | slackPost (hook msg : String)
  | runCommand (c : String)
  | spotcast (uri : String) (position_ms : Nat)
  | hueSyncSwitch
  | samsungSwitch
  | launchDisney (url : String)
  | launchNetflix (url : String)
  | launchYoutube (url : String)
  | sendKey (key : String)
  | homepodStream (file : String) (target : Option String)
  | xboxPowerOn
  | xboxLaunchApp (a : String)
deriving DecidableEq

/-- Model of `Base.stopMp3` (lego.py lines 209-211): sets the global
`mp3state` to `'STOPPED'`. -/
def stopMp3 (s : Session) : Session :=
  { s with mp3state := some ("STOPPED") }

/-- Model of `Base.pauseMp3` (lego.py lines 213-219): pauses the player and
moves `mp3state` to `'PAUSED'` only when `mp3state == 'PLAYING'`. -/
def pauseMp3 (s : Session) : Session × List Effect :=
  if s.mp3state = some ("PLAYING") then
    ({ s with mp3state := some ("PAUSED") }, [Effect.playerPause])
  else (s, [])

/-- Model of `Base.startMp3` with `is_playlist=False` (lego.py lines
188-197): open and play the file, set the global `mp3_duration` from the
decoded track length, and start a lightshow for `mp3_duration * 1000` ms. -/
def startMp3_file (env : Env) (s : Session) (filename mp3_dir : String) :
    Session × List Effect :=
  let mp3file := mp3_dir ++ filename
  let dur := env.track_length mp3file
  ({ s with mp3_duration := dur },
   [Effect.playerOpen mp3file, Effect.playerPlay, Effect.startLightshow (dur * 1000)])

/-- Model of `Base.startMp3` with `is_playlist=True` (lego.py lines 198-207):
hand the file list to the player, sum the track lengths into `mp3_duration`,
and start a lightshow for the total. -/
def startMp3_playlist (env : Env) (s : Session) (files : List String) :
    Session × List Effect :=
  let dur := (files.map env.track_length).sum
  ({ s with mp3_duration := dur },
   [Effect.playerPlaylist files, Effect.startLightshow (dur * 1000)])

/-- Model of `Base.playMp3` (lego.py lines 221-236).  After the unconditional
`spotify.pause()`: when `previous_tag == current_tag` and `mp3state ==
'PAUSED'` the player is resumed, and if the remaining duration is at least
0.1 s a lightshow for the remainder is started and the function returns
(leaving `mp3state` untouched); otherwise control falls through to the
new-play path (`stopMp3`, `startMp3`, `mp3state = 'PLAYING'`). -/
def playMp3 (env : Env) (s : Session) (filename mp3_dir : String) :
    Session × List Effect :=
  if s.previous_tag = s.current_tag ∧ s.mp3state = some ("PAUSED") then
    let remaining := s.mp3_duration - s.mp3elapsed
    if 1/10 ≤ remaining then
      (s, [Effect.spotifyPause, Effect.playerPlay, Effect.startLightshow (remaining * 1000)])
    else
      let s1 := stopMp3 s
      let r2 := startMp3_file env s1 filename mp3_dir
      ({ r2.1 with mp3state := some ("PLAYING") },
       [Effect.spotifyPause, Effect.playerPlay] ++ r2.2)
  else
    let s1 := stopMp3 s
    let r2 := startMp3_file env s1 filename mp3_dir
    ({ r2.1 with mp3state := some ("PLAYING") },
     [Effect.spotifyPause] ++ r2.2)

/-- Model of `Base.playPlaylist` (lego.py lines 238-259): `spotify.pause()`,
glob the playlist folder, flash orange and return when it is empty, otherwise
optionally shuffle, start playlist playback and set `mp3state = 'PLAYING'`. -/
def playPlaylist (env : Env) (s : Session) (playlist_filename mp3_dir : String)
    (shuffle : Bool) : Session × List Effect :=
  let list_mp3_to_play :=
    env.playlist_files (mp3_dir ++ "/" ++ playlist_filename ++ "/*.mp3")
  if list_mp3_to_play = [] then
    (s, [Effect.spotifyPause, Effect.flashPad 0 10 10 3 ORANGE])
  else
    let files := if shuffle then env.shuffle_fn list_mp3_to_play else list_mp3_to_play
    let r := startMp3_playlist env s files
    ({ r.1 with mp3state := some ("PLAYING") },
     [Effect.spotifyPause] ++ r.2)

/-- Model of `Base.switchHdmiToAppleTv` (lego.py lines 261-284): try the Hue
Sync Box when configured, then fall back to the Samsung SmartThings TV. -/
def switchHdmiToAppleTv (env : Env) : Bool × List Effect :=
  if env.huesync_configured then
    if env.huesync_switch then (true, [Effect.hueSyncSwitch])
    else if env.samsung_configured then
      (env.samsung_switch, [Effect.hueSyncSwitch, Effect.samsungSwitch])
    else (false, [Effect.hueSyncSwitch])
  else if env.samsung_configured then
    (env.samsung_switch, [Effect.samsungSwitch])
  else (false, [])

/-- Playlist field of the dispatch (lego.py lines 353-359): when
`'playlist'` is in the binding, play it with shuffle iff `'shuffle'` is
present. -/
def playlistStep (env : Env) (cfg : Config) (b : Binding) (s : Session) :
    Session × List Effect :=
  match b.playlist with
  | some pl => playPlaylist env s pl cfg.mp3_dir b.shuffle
  | none => (s, [])

/-- The mp3 field of the dispatch (lego.py lines 360-362). -/
def mp3Step (env : Env) (cfg : Config) (b : Binding) (s : Session) :
    Session × List Effect :=
  match b.mp3 with
  | some f => playMp3 env s f cfg.mp3_dir
  | none => (s, [])

/-- Slack field of the dispatch (lego.py lines 363-364). -/
def slackEffects (cfg : Config) (b : Binding) : List Effect :=
  match b.slack with
  | some msg => [Effect.slackPost cfg.slack_hook msg]
  | none => []

/-- Operator-command field of the dispatch (lego.py lines 365-375); the
`subprocess.run` outcome (timeout or failure) is logged and swallowed, so
only the invocation is observable. -/
def commandEffects (b : Binding) : List Effect :=
  match b.command with
  | some c => [Effect.runCommand c]
  | none => []

/-- Condition of the Spotify resume-and-`continue` branch (lego.py lines
376-379), evaluated on the state reached after the playlist / mp3 steps. -/
def spotifyResumeTaken (env : Env) (b : Binding) (s : Session) : Prop :=
  b.spotify.isSome = true ∧ env.spotify_activated = true ∧
    s.current_tag = s.previous_tag

instance (env : Env) (b : Binding) (s : Session) :
    Decidable (spotifyResumeTaken env b s) := by
  unfold spotifyResumeTaken; infer_instance

/-- Effects of the non-resume Spotify handling (lego.py lines 380-391): parse
`position_ms` (0 on failure), `spotcast`, then either a lightshow for the
returned duration or an error flash. -/
def spotifyCastEffects (env : Env) (b : Binding) (pad : Nat) : List Effect :=
  match b.spotify with
  | some uri =>
    if env.spotify_activated then
      let position_ms := b.position_ms.getD 0
      let duration_ms := env.spotify_cast_ms uri position_ms
      [Effect.spotcast uri position_ms] ++
        (if 0 < duration_ms then [Effect.startLightshow duration_ms]
         else [Effect.flashPad pad 10 10 6 RED])
    else []
  | none => []

/-- State change of the Spotify field when the resume branch is not taken:
`stopMp3` on the cast path (line 384), and the `current_tag = previous_tag`
restore when Spotify is not activated (lego.py lines 392-393). -/
def spotifyCastState (env : Env) (b : Binding) (s : Session) : Session :=
  match b.spotify with
  | some _ =>
    if env.spotify_activated then stopMp3 s
    else { s with current_tag := s.previous_tag }
  | none => s

/-- Effects of the Disney+ deep-link field (lego.py lines 394-408). -/
def disneyEffects (env : Env) (b : Binding) (pad : Nat) : List Effect :=
  match b.disney with
  | some url =>
    if env.appletv_activated then
      (switchHdmiToAppleTv env).2 ++ [Effect.launchDisney url] ++
        (if env.launch_disney url then
          [Effect.switchPad pad PURPLE, Effect.sendKey ("OK")]
         else [Effect.flashPad pad 10 10 6 RED])
    else []
  | none => []

/-- State change of the Disney+ field (`stopMp3` at line 396). -/
def disneyState (env : Env) (b : Binding) (s : Session) : Session :=
  match b.disney with
  | some _ => if env.appletv_activated then stopMp3 s else s
  | none => s

/-- Effects of the Netflix deep-link field (lego.py lines 409-427): on a
successful launch the pad turns purple and `OK` is sent twice. -/
def netflixEffects (env : Env) (b : Binding) (pad : Nat) : List Effect :=
  match b.netflix with
  | some url =>
    if env.appletv_activated then
      (switchHdmiToAppleTv env).2 ++ [Effect.launchNetflix url] ++
        (if env.launch_netflix url then
          [Effect.switchPad pad PURPLE, Effect.sendKey ("OK"), Effect.sendKey ("OK")]
         else [Effect.flashPad pad 10 10 6 RED])
    else []
  | none => []

/-- State change of the Netflix field (`stopMp3` at line 411). -/
def netflixState (env : Env) (b : Binding) (s : Session) : Session :=
  match b.netflix with
  | some _ => if env.appletv_activated then stopMp3 s else s
  | none => s

/-- Effects of the YouTube deep-link field (lego.py lines 428-442). -/
def youtubeEffects (env : Env) (b : Binding) (pad : Nat) : List Effect :=
  match b.youtube with
  | some url =>
    if env.appletv_activated then
      (switchHdmiToAppleTv env).2 ++ [Effect.launchYoutube url] ++
        (if env.launch_youtube url then
          [Effect.switchPad pad PURPLE, Effect.sendKey ("OK")]
         else [Effect.flashPad pad 10 10 6 RED])
    else []
  | none => []

/-- State change of the YouTube field (`stopMp3` at line 430). -/
def youtubeState (env : Env) (b : Binding) (s : Session) : Session :=
  match b.youtube with
  | some _ => if env.appletv_activated then stopMp3 s else s
  | none => s

/-- Effects of the AirPlay / HomePod field (lego.py lines 443-455). -/
def airplayEffects (env : Env) (b : Binding) (pad : Nat) : List Effect :=
  match b.airplay with
  | some file =>
    [Effect.homepodStream file b.homepod] ++
      (if env.homepod_stream file b.homepod then [Effect.switchPad pad LBLUE]
       else [Effect.flashPad pad 10 10 6 RED])
  | none => []

/-- State change of the AirPlay field (`stopMp3` at line 445). -/
def airplayState (b : Binding) (s : Session) : Session :=
  match b.airplay with
  | some _ => stopMp3 s
  | none => s

/-- Navigation key sequence sent to the Samsung TV by the Xbox field
(lego.py lines 466-475). -/
def xboxNavKeys : List String :=
  ["HOME", "LEFT", "DOWN", "RIGHT", "DOWN", "DOWN", "DOWN", "OK"]

/-- Effects of the Xbox field (lego.py lines 456-493): optional TV menu
navigation, `xboxctl.sync_power_on()`, then pad feedback and the optional app
launch. -/
def xboxEffects (env : Env) (b : Binding) (pad : Nat) : List Effect :=
  if b.xbox then
    (if env.samsung_configured then xboxNavKeys.map Effect.sendKey else []) ++
      [Effect.xboxPowerOn] ++
      (if env.xbox_power_on then
        [Effect.switchPad pad OLIVE] ++
          (match b.xbox_app with
           | some a => [Effect.xboxLaunchApp a]
           | none => [])
       else [Effect.flashPad pad 10 10 6 RED])
  else []

/-- State change of the Xbox field (`stopMp3` at line 458). -/
def xboxState (b : Binding) (s : Session) : Session :=
  if b.xbox then stopMp3 s else s

/-- Dispatch tail from the Spotify field on (lego.py lines 376-493).  The
resume branch ends in `continue`, so when it is taken none of the later
fields run; otherwise the Spotify cast / restore handling and the Disney,
Netflix, YouTube, AirPlay and Xbox fields all run in order. -/
def dispatchTail (env : Env) (b : Binding) (pad : Nat) (s : Session) :
    Session × List Effect :=
  if spotifyResumeTaken env b s then
    (s, [Effect.spotifyResume, Effect.startLightshow env.spotify_resume_ms])
  else
    (xboxState b (airplayState b (youtubeState env b
        (netflixState env b (disneyState env b (spotifyCastState env b s))))),
     spotifyCastEffects env b pad ++ disneyEffects env b pad ++
       netflixEffects env b pad ++ youtubeEffects env b pad ++
       airplayEffects env b pad ++ xboxEffects env b pad)

/-- Whole matched-binding dispatch (lego.py lines 353-493), entered after
`previous_tag` / `current_tag` have been updated: playlist, mp3, Slack and
command fields in order, then the dispatch tail. -/
def handleBound (env : Env) (cfg : Config) (b : Binding) (pad : Nat)
    (s : Session) : Session × List Effect :=
  let r1 := playlistStep env cfg b s
  let r2 := mp3Step env cfg b r1.1
  let r3 := dispatchTail env b pad r2.1
  (r3.1, r1.2 ++ r2.2 ++ slackEffects cfg b ++ commandEffects b ++ r3.2)

/-- Loop body for an `added` event (lego.py lines 326-497): blue feedback when
the lightshow toggle is on, cancel-and-join of any running lightshow, then
either the bound dispatch (after the `previous_tag` / `current_tag` update of
lines 346-351) or the unknown-tag red feedback of lines 494-497. -/
def handleAdded (env : Env) (cfg : Config) (s : Session) (pad : Nat)
    (identifier : String) : Session × List Effect :=
  let blue := if env.switch_lights then [Effect.switchPad pad BLUE] else []
  match cfg.bindings identifier with
  | none => (s, blue ++ [Effect.cancelLightshow, Effect.switchPad pad RED])
  | some b =>
    let prev := s.current_tag.getD identifier
    let s0 := { s with previous_tag := some prev, current_tag := some identifier }
    let r := handleBound env cfg b pad s0
    (r.1, blue ++ [Effect.cancelLightshow] ++ r.2)

/-- Loop body for a `removed` event (lego.py lines 316-325): only when the
removed identifier equals `current_tag` are the lightshow cancelled-and-
joined, the local player paused, and Spotify paused (when activated);
`current_tag` itself is never written. -/
def handleRemoved (env : Env) (s : Session) (identifier : String) :
    Session × List Effect :=
  if s.current_tag = some identifier then
    let r := pauseMp3 s
    (r.1, [Effect.cancelLightshow] ++ r.2 ++
      (if env.spotify_activated then [Effect.spotifyPause] else []))
  else (s, [])

/-- Inputs that mutate the session state: a decoded tag event consumed by the
loop, or an asynchronous `{state, elapsed}` update written by the playback
monitor thread of `Base.initMp3` (lego.py lines 174-184). -/
inductive Event
  | added (pad : Nat) (identifier : String)
  | removed (pad : Nat) (identifier : String)
  | monitor (state : String) (elapsed : ℚ)

/-- One step of the session state machine on one input. -/
def step (env : Env) (cfg : Config) (s : Session) : Event → Session × List Effect
  | Event.added pad identifier => handleAdded env cfg s pad identifier
  | Event.removed _ identifier => handleRemoved env s identifier
  | Event.monitor st el => ({ s with mp3state := some st, mp3elapsed := el }, [])

/-- Session state after consuming a list of inputs from the initial state. -/
def run (env : Env) (cfg : Config) (events : List Event) : Session :=
  events.foldl (fun s e => (step env cfg s e).1) initialSession

/-- Whether an event is an `added` event whose identifier has a binding (the
only kind of input that can set `current_tag`). -/
def isBoundAdded (cfg : Config) : Event → Prop
  | Event.added _ identifier => (cfg.bindings identifier).isSome = true
  | _ => False

instance (cfg : Config) (e : Event) : Decidable (isBoundAdded cfg e) := by
  unfold isBoundAdded; cases e <;> infer_instance

/-! ## Concrete fixtures used by the claim theorems -/

/-- Environment fixture for the C4 theorems: lightshow enabled, every
provider inert, every track 30 seconds long. -/
def envC4 : Env :=
  Env.mk true false 0 (fun _ _ => 0) false (fun _ => true) (fun _ => true)
    (fun _ => true) (fun _ _ => true) false false false false false
    (fun _ => 30) (fun _ => []) (fun l => l)

/-- Paused session with only 0.05 s of track left
(duration 100 s, elapsed 99.95 s). -/
def sC4 : Session :=
  Session.mk (some ("X")) (some ("X")) (some ("PAUSED")) 100 (1999/20)

/-- Paused session with 60 s of track left. -/
def sC4w : Session :=
  Session.mk (some ("X")) (some ("X")) (some ("PAUSED")) 100 40

/-- Paused session used for the C10 witness. -/
def sC10 : Session :=
  Session.mk (some ("Y")) (some ("Y")) (some ("PAUSED")) 10 5

/-- Binding with both a Spotify URI and a Disney URL, for the C5
counterexample. -/
def bC5x : Binding :=
  { Binding.empty with spotify := some ("sp"), disney := some ("du") }

/-- Environment for the C5 counterexample: Spotify and the Apple TV both
activated, lightshow toggle off. -/
def envC5x : Env :=
  Env.mk false true 5000 (fun _ _ => 0) true (fun _ => true) (fun _ => true)
    (fun _ => true) (fun _ _ => true) true true false false false
    (fun _ => 2) (fun _ => ["a.mp3", "b.mp3"]) (fun l => l)

/-- Tag configuration binding identifier `"X"` to `bC5x`. -/
def cfgC5x : Config :=
  Config.mk (fun identifier => if identifier = "X" then some bC5x else none)
    ("hook") ("m/")

/-- Session in which `"X"` is already the current tag (so re-adding it takes
the Spotify resume branch). -/
def sC5x : Session := Session.mk (some ("X")) none none 0 0

/-- Binding with every later field present, for the C5 witness. -/
def bC5w : Binding :=
  Binding.mk none false none none none (some ("sp")) none (some ("du"))
    (some ("nu")) (some ("yu")) (some ("af")) none true none

/-- Environment for the C5 witness: Spotify NOT activated (so the resume
branch cannot be taken), Apple TV activated. -/
def envC5w : Env :=
  Env.mk true false 0 (fun _ _ => 0) true (fun _ => true) (fun _ => true)
    (fun _ => true) (fun _ _ => true) true false false false false
    (fun _ => 1) (fun _ => []) (fun l => l)

/-- Tag configuration binding identifier `"W"` to `bC5w`. -/
def cfgC5w : Config :=
  Config.mk (fun identifier => if identifier = "W" then some bC5w else none)
    ("hook") ("m/")

/-- Binding with both a playlist and an mp3 (and nothing else), for the C6
counterexample. -/
def bC6 : Binding :=
  { Binding.empty with playlist := some ("pl"), mp3 := some ("f.mp3") }

/-- Environment for the C6 counterexample: inert providers, lightshow toggle
off, every track 2 s, the playlist folder holding two files. -/
def envC6 : Env :=
  Env.mk false false 0 (fun _ _ => 0) false (fun _ => true) (fun _ => true)
    (fun _ => true) (fun _ _ => true) false false false false false
    (fun _ => 2) (fun _ => ["a.mp3", "b.mp3"]) (fun l => l)

/-- Tag configuration binding identifier `"X"` to `bC6`. -/
def cfgC6 : Config :=
  Config.mk (fun identifier => if identifier = "X" then some bC6 else none)
    ("hook") ("m/")

/-- Binding with every field present, for the C6 witness. -/
def bC6w : Binding :=
  Binding.mk (some ("pl")) false (some ("f.mp3")) (some ("msg")) (some ("cmd"))
    (some ("uri")) none (some ("du")) (some ("nu")) (some ("yu")) (some ("af"))
    none true none

/-- Environment for the C6 witness: Spotify and Apple TV activated, playlist
folder holding one file. -/
def envC6w : Env :=
  Env.mk false true 0 (fun _ _ => 0) true (fun _ => true) (fun _ => true)
    (fun _ => true) (fun _ _ => true) true false false false false
    (fun _ => 1) (fun _ => ["a.mp3"]) (fun l => l)

/-- Tag configuration binding identifier `"X"` to `bC6w`. -/
def cfgC6w : Config :=
  Config.mk (fun identifier => if identifier = "X" then some bC6w else none)
    ("hk") ("m/")

/-- Session in which tag `"Z"` (different from `"X"`) is current. -/
def sC6w : Session := Session.mk (some ("Z")) none none 0 0

/-- Environment for the C7 theorems: lightshow toggle ON, everything else
inert. -/
def envC7 : Env :=
  Env.mk true false 0 (fun _ _ => 0) false (fun _ => true) (fun _ => true)
    (fun _ => true) (fun _ _ => true) false false false false false
    (fun _ => 1) (fun _ => []) (fun l => l)

/-- Tag configuration with no bindings at all. -/
def cfgC7 : Config :=
  Config.mk (fun _ => none) ("hk") ("m/")

/-- Mid-playback session used for the C7 counterexample. -/
def sC7 : Session :=
  Session.mk (some ("T")) (some ("T")) (some ("PLAYING")) 3 1

/-- Tag configuration for the C8 witness: only identifier `"X"` is bound. -/
def cfgC8 : Config :=
  Config.mk (fun identifier =>
    if identifier = "X" then some Binding.empty else none) ("hk") ("m/")

/-- Binding with both a playlist and an mp3, for the C9 counterexample. -/
def bC9 : Binding :=
  { Binding.empty with playlist := some ("q"), mp3 := some ("t.mp3") }

/-- Environment for the C9 counterexample: the lightshow toggle is ON (so
every `startLightshow` call of `Base.startLightshow` really spawns a worker
thread, lego.py line 165), providers inert, every track 3 s, the playlist
folder holding one file. -/
def envC9 : Env :=
  Env.mk true false 0 (fun _ _ => 0) false (fun _ => true) (fun _ => true)
    (fun _ => true) (fun _ _ => true) false false false false false
    (fun _ => 3) (fun _ => ["c.mp3"]) (fun l => l)

/-- Tag configuration binding identifier `"Y"` to `bC9`. -/
def cfgC9 : Config :=
  Config.mk (fun identifier => if identifier = "Y" then some bC9 else none)
    ("hk") ("d/")

/-! ## Helper lemmas -/

theorem checksum_step_eq_mod (acc b : Nat) (ha : acc < 256) (hb : b < 256) :
    checksum_step acc b = (acc + b) % 256 := by
  show (if 256 ≤ acc + b then acc + b - 256 else acc + b) = (acc + b) % 256
  split <;> omega

theorem checksum_foldl (C : List Nat) :
    ∀ acc, (∀ b ∈ C, b < 256) → acc < 256 →
      C.foldl checksum_step acc = (acc + C.sum) % 256 := by
  induction C with
  | nil =>
    intro acc _ ha
    simp [Nat.mod_eq_of_lt ha]
  | cons b bs ih =>
    intro acc h ha
    have hb : b < 256 := h b (by simp)
    have hmem : ∀ x ∈ bs, x < 256 := fun x hx => h x (by simp [hx])
    rw [List.foldl_cons, checksum_step_eq_mod acc b ha hb,
      ih ((acc + b) % 256) hmem (Nat.mod_lt _ (by omega)), List.sum_cons]
    conv_rhs => rw [← Nat.mod_add_mod]
    omega

theorem leadsWith_iff (pat l : List Char) : leadsWith pat l = true ↔ pat <+: l := by
  induction pat generalizing l with
  | nil => simp [leadsWith]
  | cons p ps ih =>
    cases l with
    | nil => simp [leadsWith]
    | cons c cs =>
      simp only [leadsWith, Bool.and_eq_true, beq_iff_eq, ih, List.cons_prefix_cons]

theorem pyReplaceAux_fuel (pat : List Char) :
    ∀ f g l, l.length ≤ f → l.length ≤ g →
      pyReplaceAux pat f l = pyReplaceAux pat g l := by
  intro f
  induction f generalizing pat with
  | zero =>
    intro g l hf _
    match l, hf with
    | [], _ => cases g <;> rfl
  | succ f ih =>
    intro g l hf hg
    match l with
    | [] => cases g <;> rfl
    | c :: cs =>
      match g, hg with
      | Nat.succ g, hg =>
        rw [pyReplaceAux, pyReplaceAux]
        simp only [List.length_cons] at hf hg
        split
        · exact ih pat g _ (by simp only [List.length_drop]; omega)
            (by simp only [List.length_drop]; omega)
        · rw [ih pat g cs (by omega) (by omega)]

theorem pyReplaceAux_no_occurrence (pat : List Char) (_hne : pat ≠ []) :
    ∀ f l, l.length ≤ f → ¬ (pat <:+: l) → pyReplaceAux pat f l = l := by
  intro f
  induction f with
  | zero =>
    intro l hf _
    match l, hf with
    | [], _ => rfl
  | succ f ih =>
    intro l hf h
    match l with
    | [] => rfl
    | c :: cs =>
      rw [pyReplaceAux]
      have hpre : ¬ (leadsWith pat (c :: cs) = true) := by
        intro hw
        exact h ( List.IsPrefix.isInfix ((leadsWith_iff pat (c :: cs)).mp hw))
      rw [if_neg hpre]
      have hcs : ¬ (pat <:+: cs) := by
        intro hinf
        exact h (hinf.trans ( List.IsSuffix.isInfix (List.suffix_cons c cs)))
      rw [ih cs (by simp only [List.length_cons] at hf; omega) hcs]

theorem pyReplace_no_occurrence (pat l : List Char) (hne : pat ≠ [])
    (h : ¬ (pat <:+: l)) : pyReplace pat l = l :=
  pyReplaceAux_no_occurrence pat hne l.length l le_rfl h

theorem update_nfc_zero_flag (b1 p b3 b4 : Nat) (uid padding : List Nat) :
    update_nfc ([0x56, b1, p, b3, b4, 0] ++ uid ++ padding) =
      some (TagEvent.mk TagEventKind.added p
        (String.mk (pyReplace zeroGroup (hexlify ((uid ++ padding).take 7))))) := by
  show update_nfc (0x56 :: ([b1, p, b3, b4, 0] ++ (uid ++ padding))) = _
  rw [update_nfc]
  have hlen : 6 ≤ (0x56 :: ([b1, p, b3, b4, 0] ++ (uid ++ padding))).length := by
    simp only [List.length_cons, List.length_append]
    omega
  rw [if_pos rfl, if_pos hlen]
  have hpad : (0x56 :: ([b1, p, b3, b4, 0] ++ (uid ++ padding))).getD 2 0 = p := rfl
  have hflag : (0x56 :: ([b1, p, b3, b4, 0] ++ (uid ++ padding))).getD 5 0 = 0 := rfl
  have hdrop : (0x56 :: ([b1, p, b3, b4, 0] ++ (uid ++ padding))).drop 6 =
      uid ++ padding := rfl
  rw [hpad, hflag, hdrop]
  simp

theorem pyReplace_head (pat rest : List Char) (hne : pat ≠ []) :
    pyReplace pat (pat ++ rest) = pyReplace pat rest := by
  match pat, hne with
  | p :: ps, _ =>
    show pyReplaceAux (p :: ps) (p :: (ps ++ rest)).length (p :: (ps ++ rest)) =
      pyReplaceAux (p :: ps) rest.length rest
    have hL : (p :: (ps ++ rest)).length = Nat.succ (ps.length + rest.length) := by
      simp
    rw [hL, pyReplaceAux]
    have hlw : leadsWith (p :: ps) (p :: (ps ++ rest)) = true :=
      (leadsWith_iff _ _).mpr ⟨rest, by simp⟩
    rw [if_pos hlw]
    have hdrop : List.drop ((p :: ps).length - 1) (ps ++ rest) = rest := by
      simp only [List.length_cons, Nat.add_sub_cancel]
      exact List.drop_left ps rest
    rw [hdrop]
    exact pyReplaceAux_fuel (p :: ps) _ _ rest (by omega) le_rfl

theorem hexlify_append (a b : List Nat) :
    hexlify (a ++ b) = hexlify a ++ hexlify b := by
  simp [hexlify]

/-! ## Claim C1 -/

/-- C1: for every command byte list (entries below 256, at most 31 entries so
the frame can carry the checksum), the checksum computed by `send_command` is
the sum of the command bytes modulo 256, and the emitted frame is exactly the
32 bytes consisting of the command, the checksum and zero padding. -/
theorem C1_send_command_frame (C : List Nat)
    (hbytes : ∀ b ∈ C, b < 256) (hlen : C.length ≤ 31) :
    send_command_checksum C = C.sum % 256 ∧
    send_command_message C = C ++ [C.sum % 256] ++ List.replicate (31 - C.length) 0 ∧
    (send_command_message C).length = 32 := by
  have hchk : send_command_checksum C = C.sum % 256 := by
    have := checksum_foldl C 0 hbytes (by omega)
    simpa [send_command_checksum] using this
  refine ⟨hchk, ?_, ?_⟩
  · show (C ++ [send_command_checksum C]) ++
        List.replicate (32 - (C ++ [send_command_checksum C]).length) 0 =
      C ++ [C.sum % 256] ++ List.replicate (31 - C.length) 0
    rw [hchk]
    have h32 : 32 - (C ++ [C.sum % 256]).length = 31 - C.length := by
      simp only [List.length_append, List.length_cons, List.length_nil]
      omega
    rw [h32, List.append_assoc]
  · show ((C ++ [send_command_checksum C]) ++
        List.replicate (32 - (C ++ [send_command_checksum C]).length) 0).length = 32
    simp only [List.length_append, List.length_cons, List.length_nil,
      List.length_replicate]
    omega

/-- Witness for C1 at the concrete pad-colour command
`[0x55, 0x06, 0xc0, 0x02, 0, 0, 255, 0]` (whose byte sum is 540). -/
theorem C1_send_command_frame_witness :
    send_command_checksum [0x55, 0x06, 0xc0, 0x02, 0, 0, 255, 0] =
        [0x55, 0x06, 0xc0, 0x02, 0, 0, 255, 0].sum % 256 ∧
    (send_command_message [0x55, 0x06, 0xc0, 0x02, 0, 0, 255, 0]).length = 32 := by
  have h := C1_send_command_frame [0x55, 0x06, 0xc0, 0x02, 0, 0, 255, 0]
    (by decide) (by decide)
  exact ⟨h.1, h.2.2⟩

/-! ## Claim C2 -/

/-- C2 counterexample: identifier bytes `a1 00 00 00 b2 c3 d4` contain zero
bytes after a nonzero byte; the claim says they are preserved, which would
give identifier `"a1000000b2c3d4"`, but `update_nfc` removes the interior
`'000000'` group as well and decodes `"a1b2c3d4"`. -/
theorem C2_counterexample :
    update_nfc
        ([0x56, 0, 2, 0, 0, 0, 0xa1, 0x00, 0x00, 0x00, 0xb2, 0xc3, 0xd4] ++
          List.replicate 19 0)
      = some (TagEvent.mk TagEventKind.added 2 ("a1b2c3d4")) ∧
    ("a1b2c3d4" : String) ≠ ("a1000000b2c3d4" : String) := by
  constructor
  · decide
  · decide

/-- C2 amended: the decoded identifier is the hex encoding of the 7
identifier bytes with every occurrence of the substring `'000000'` removed
(Python `str.replace`), not only a leading zero group.  When the hex encoding
of the last four identifier bytes contains no `'000000'` occurrence — in
particular in the spec's example — this coincides with stripping the leading
all-zero group: a frame with marker `0x56`, removal flag 0, pad byte `p` and
identifier bytes `00 00 00` followed by `rest` decodes to an Added event on
pad `p` with identifier `hexlify rest`. -/
theorem C2_amended (b1 p b3 b4 : Nat) (rest padding : List Nat)
    (hlen : rest.length = 4) (hno : ¬ (zeroGroup <:+: hexlify rest)) :
    update_nfc ([0x56, b1, p, b3, b4, 0] ++ ([0, 0, 0] ++ rest) ++ padding)
      = some (TagEvent.mk TagEventKind.added p (String.mk (hexlify rest))) := by
  rw [update_nfc_zero_flag]
  have htake : ((([0, 0, 0] ++ rest) ++ padding).take 7) = [0, 0, 0] ++ rest := by
    rw [List.append_assoc]
    have h7 : 7 = (3 : Nat) + 4 := rfl
    rw [h7]
    rw [show ((3 : Nat) = ([0, 0, 0] : List Nat).length) from rfl]
    rw [List.take_append]
    rw [← hlen, List.take_left]
  rw [htake]
  have hhex : hexlify ([0, 0, 0] ++ rest) = zeroGroup ++ hexlify rest := by
    rw [hexlify_append]
    rfl
  rw [hhex, pyReplace_head zeroGroup (hexlify rest) (by decide),
    pyReplace_no_occurrence zeroGroup (hexlify rest) (by decide) hno]

/-- Witness for C2 at the spec's own example: identifier bytes
`00 00 00 a1 b2 c3 d4` decode to an Added event on pad 2 with identifier
`"a1b2c3d4"`. -/
theorem C2_amended_witness :
    update_nfc ([0x56, 0, 2, 0, 0, 0] ++
        ([0, 0, 0] ++ [0xa1, 0xb2, 0xc3, 0xd4]) ++ List.replicate 19 0)
      = some (TagEvent.mk TagEventKind.added 2 ("a1b2c3d4")) := by
  have h := C2_amended 0 2 0 0 [0xa1, 0xb2, 0xc3, 0xd4] (List.replicate 19 0)
    (by decide) (by decide)
  exact h.trans (by decide)

/-! ## Claim C3 -/

/-- C3: when USB discovery fails, `Dimensions.__init__` leaves a disabled
(`None`) handle.  On that handle `update_nfc` indeed returns no event for
every read outcome (its generic exception handler catches the
`AttributeError`), but `send_command` — and the pad-colour helper
`switch_pad` built on it — is NOT a harmless no-op: its `try` catches only
`usb.core.USBError`, so the `AttributeError` raised by `None.write`
propagates to the caller. -/
theorem C3_disabled_driver :
    send_command (Dimensions_init false) [0x55, 0x06, 0xc0, 0x02, 0, 0, 255, 0]
        = Except.error PyExc.attributeError ∧
    switch_pad (Dimensions_init false) 0 GREEN
        = Except.error PyExc.attributeError ∧
    update_nfc_dev (Dimensions_init false)
        (Except.ok ([0x56, 0, 2, 0, 0, 0] ++ List.replicate 26 1)) = none ∧
    update_nfc_dev (Dimensions_init false)
        (Except.error PyExc.usbTimeoutError) = none := by
  refine ⟨?_, ?_, ?_, ?_⟩ <;> decide

/-! ## Session state machine lemmas -/

theorem stopMp3_tags (s : Session) :
    (stopMp3 s).current_tag = s.current_tag ∧
    (stopMp3 s).previous_tag = s.previous_tag :=
  ⟨rfl, rfl⟩

theorem pauseMp3_tags (s : Session) :
    ((pauseMp3 s).1).current_tag = s.current_tag ∧
    ((pauseMp3 s).1).previous_tag = s.previous_tag := by
  unfold pauseMp3
  split <;> exact ⟨rfl, rfl⟩

theorem playMp3_tags (env : Env) (s : Session) (f d : String) :
    ((playMp3 env s f d).1).current_tag = s.current_tag ∧
    ((playMp3 env s f d).1).previous_tag = s.previous_tag := by
  unfold playMp3 startMp3_file stopMp3
  dsimp only
  split
  · split <;> exact ⟨rfl, rfl⟩
  · exact ⟨rfl, rfl⟩

theorem playPlaylist_tags (env : Env) (s : Session) (pl d : String) (sh : Bool) :
    ((playPlaylist env s pl d sh).1).current_tag = s.current_tag ∧
    ((playPlaylist env s pl d sh).1).previous_tag = s.previous_tag := by
  unfold playPlaylist startMp3_playlist
  dsimp only
  split <;> exact ⟨rfl, rfl⟩

theorem playlistStep_tags (env : Env) (cfg : Config) (b : Binding) (s : Session) :
    ((playlistStep env cfg b s).1).current_tag = s.current_tag ∧
    ((playlistStep env cfg b s).1).previous_tag = s.previous_tag := by
  unfold playlistStep
  cases b.playlist
  · exact ⟨rfl, rfl⟩
  · exact playPlaylist_tags env s _ cfg.mp3_dir b.shuffle

theorem mp3Step_tags (env : Env) (cfg : Config) (b : Binding) (s : Session) :
    ((mp3Step env cfg b s).1).current_tag = s.current_tag ∧
    ((mp3Step env cfg b s).1).previous_tag = s.previous_tag := by
  unfold mp3Step
  cases b.mp3
  · exact ⟨rfl, rfl⟩
  · exact playMp3_tags env s _ cfg.mp3_dir

theorem spotifyCastState_tags (env : Env) (b : Binding) (s : Session) :
    ((spotifyCastState env b s).current_tag = s.current_tag ∨
      (spotifyCastState env b s).current_tag = s.previous_tag) ∧
    (spotifyCastState env b s).previous_tag = s.previous_tag := by
  unfold spotifyCastState stopMp3
  cases b.spotify
  · exact ⟨Or.inl rfl, rfl⟩
  · dsimp only
    split
    · exact ⟨Or.inl rfl, rfl⟩
    · exact ⟨Or.inr rfl, rfl⟩

theorem disneyState_tags (env : Env) (b : Binding) (s : Session) :
    (disneyState env b s).current_tag = s.current_tag ∧
    (disneyState env b s).previous_tag = s.previous_tag := by
  unfold disneyState stopMp3
  cases b.disney
  · exact ⟨rfl, rfl⟩
  · dsimp only
    split <;> exact ⟨rfl, rfl⟩

theorem netflixState_tags (env : Env) (b : Binding) (s : Session) :
    (netflixState env b s).current_tag = s.current_tag ∧
    (netflixState env b s).previous_tag = s.previous_tag := by
  unfold netflixState stopMp3
  cases b.netflix
  · exact ⟨rfl, rfl⟩
  · dsimp only
    split <;> exact ⟨rfl, rfl⟩

theorem youtubeState_tags (env : Env) (b : Binding) (s : Session) :
    (youtubeState env b s).current_tag = s.current_tag ∧
    (youtubeState env b s).previous_tag = s.previous_tag := by
  unfold youtubeState stopMp3
  cases b.youtube
  · exact ⟨rfl, rfl⟩
  · dsimp only
    split <;> exact ⟨rfl, rfl⟩

theorem airplayState_tags (b : Binding) (s : Session) :
    (airplayState b s).current_tag = s.current_tag ∧
    (airplayState b s).previous_tag = s.previous_tag := by
  unfold airplayState stopMp3
  cases b.airplay <;> exact ⟨rfl, rfl⟩

theorem xboxState_tags (b : Binding) (s : Session) :
    (xboxState b s).current_tag = s.current_tag ∧
    (xboxState b s).previous_tag = s.previous_tag := by
  unfold xboxState stopMp3
  split <;> exact ⟨rfl, rfl⟩

theorem dispatchTail_tags (env : Env) (b : Binding) (pad : Nat) (s : Session) :
    ((dispatchTail env b pad s).1.current_tag = s.current_tag ∨
      (dispatchTail env b pad s).1.current_tag = s.previous_tag) ∧
    (dispatchTail env b pad s).1.previous_tag = s.previous_tag := by
  unfold dispatchTail
  split
  · exact ⟨Or.inl rfl, rfl⟩
  · dsimp only
    have hsp := spotifyCastState_tags env b s
    have hd := disneyState_tags env b (spotifyCastState env b s)
    have hn := netflixState_tags env b (disneyState env b (spotifyCastState env b s))
    have hy := youtubeState_tags env b
      (netflixState env b (disneyState env b (spotifyCastState env b s)))
    have ha := airplayState_tags b (youtubeState env b
      (netflixState env b (disneyState env b (spotifyCastState env b s))))
    have hx := xboxState_tags b (airplayState b (youtubeState env b
      (netflixState env b (disneyState env b (spotifyCastState env b s)))))
    constructor
    · rw [hx.1, ha.1, hy.1, hn.1, hd.1]
      exact hsp.1
    · rw [hx.2, ha.2, hy.2, hn.2, hd.2]
      exact hsp.2

theorem handleBound_tags (env : Env) (cfg : Config) (b : Binding) (pad : Nat)
    (s : Session) :
    ((handleBound env cfg b pad s).1.current_tag = s.current_tag ∨
      (handleBound env cfg b pad s).1.current_tag = s.previous_tag) ∧
    (handleBound env cfg b pad s).1.previous_tag = s.previous_tag := by
  unfold handleBound
  dsimp only
  have h1 := playlistStep_tags env cfg b s
  have h2 := mp3Step_tags env cfg b (playlistStep env cfg b s).1
  have h3 := dispatchTail_tags env b pad
    (mp3Step env cfg b (playlistStep env cfg b s).1).1
  constructor
  · rcases h3.1 with h | h
    · rw [h, h2.1, h1.1]
      exact Or.inl rfl
    · rw [h, h2.2, h1.2]
      exact Or.inr rfl
  · rw [h3.2, h2.2, h1.2]

theorem handleAdded_unbound (env : Env) (cfg : Config) (s : Session) (pad : Nat)
    (identifier : String) (hb : cfg.bindings identifier = none) :
    handleAdded env cfg s pad identifier =
      (s, (if env.switch_lights then [Effect.switchPad pad BLUE] else []) ++
        [Effect.cancelLightshow, Effect.switchPad pad RED]) := by
  unfold handleAdded
  rw [hb]

theorem handleAdded_bound_current (env : Env) (cfg : Config) (s : Session)
    (pad : Nat) (identifier : String) (b : Binding)
    (hb : cfg.bindings identifier = some b) :
    ((handleAdded env cfg s pad identifier).1.current_tag = some identifier ∨
      (handleAdded env cfg s pad identifier).1.current_tag =
        some (s.current_tag.getD identifier)) := by
  unfold handleAdded
  rw [hb]
  dsimp only
  exact (handleBound_tags env cfg b pad _).1

theorem handleRemoved_state (env : Env) (s : Session) (identifier : String) :
    ((handleRemoved env s identifier).1).current_tag = s.current_tag ∧
    ((handleRemoved env s identifier).1).previous_tag = s.previous_tag := by
  unfold handleRemoved
  split
  · exact pauseMp3_tags s
  · exact ⟨rfl, rfl⟩

theorem step_current_none_iff (env : Env) (cfg : Config) (s : Session)
    (e : Event) :
    (step env cfg s e).1.current_tag = none ↔
      (s.current_tag = none ∧ ¬ isBoundAdded cfg e) := by
  cases e with
  | added pad identifier =>
    show (handleAdded env cfg s pad identifier).1.current_tag = none ↔ _
    cases hb : cfg.bindings identifier with
    | none =>
      rw [handleAdded_unbound env cfg s pad identifier hb]
      simp [isBoundAdded, hb]
    | some b =>
      have h := handleAdded_bound_current env cfg s pad identifier b hb
      constructor
      · intro hnone
        rcases h with h | h <;> rw [h] at hnone <;> exact absurd hnone (by simp)
      · intro ⟨_, hni⟩
        exact absurd (by simp [isBoundAdded, hb]) hni
  | removed pad identifier =>
    show (handleRemoved env s identifier).1.current_tag = none ↔ _
    rw [(handleRemoved_state env s identifier).1]
    simp [isBoundAdded]
  | monitor st el =>
    show s.current_tag = none ↔ _
    simp [isBoundAdded]

theorem foldl_current_none_iff (env : Env) (cfg : Config) (events : List Event) :
    ∀ s : Session,
      ((events.foldl (fun s e => (step env cfg s e).1) s).current_tag = none ↔
        (s.current_tag = none ∧ ∀ e ∈ events, ¬ isBoundAdded cfg e)) := by
  induction events with
  | nil => intro s; simp
  | cons e es ih =>
    intro s
    rw [List.foldl_cons, ih, step_current_none_iff]
    constructor
    · intro ⟨⟨h1, h2⟩, h3⟩
      exact ⟨h1, by intro x hx; rcases List.mem_cons.mp hx with rfl | hx
                    exacts [h2, h3 x hx]⟩
    · intro ⟨h1, h2⟩
      exact ⟨⟨h1, h2 e (by simp)⟩, fun x hx => h2 x (by simp [hx])⟩

theorem spotifyResumeTaken_congr (env : Env) (b : Binding) (s s' : Session)
    (hc : s'.current_tag = s.current_tag) (hp : s'.previous_tag = s.previous_tag) :
    spotifyResumeTaken env b s' ↔ spotifyResumeTaken env b s := by
  unfold spotifyResumeTaken
  rw [hc, hp]

theorem handleBound_effects_of_not_resume (env : Env) (cfg : Config)
    (b : Binding) (pad : Nat) (s : Session)
    (h : ¬ spotifyResumeTaken env b s) :
    (handleBound env cfg b pad s).2 =
      (playlistStep env cfg b s).2 ++
      (mp3Step env cfg b (playlistStep env cfg b s).1).2 ++
      slackEffects cfg b ++ commandEffects b ++
      (spotifyCastEffects env b pad ++ disneyEffects env b pad ++
        netflixEffects env b pad ++ youtubeEffects env b pad ++
        airplayEffects env b pad ++ xboxEffects env b pad) := by
  unfold handleBound dispatchTail
  dsimp only
  have h1 := playlistStep_tags env cfg b s
  have h2 := mp3Step_tags env cfg b (playlistStep env cfg b s).1
  have h' : ¬ spotifyResumeTaken env b
      (mp3Step env cfg b (playlistStep env cfg b s).1).1 := by
    rw [spotifyResumeTaken_congr env b s _
      (by rw [h2.1, h1.1]) (by rw [h2.2, h1.2])]
    exact h
  rw [if_neg h']

theorem handleBound_effects_of_resume (env : Env) (cfg : Config)
    (b : Binding) (pad : Nat) (s : Session)
    (h : spotifyResumeTaken env b s) :
    (handleBound env cfg b pad s).2 =
      (playlistStep env cfg b s).2 ++
      (mp3Step env cfg b (playlistStep env cfg b s).1).2 ++
      slackEffects cfg b ++ commandEffects b ++
      [Effect.spotifyResume, Effect.startLightshow env.spotify_resume_ms] := by
  unfold handleBound dispatchTail
  dsimp only
  have h1 := playlistStep_tags env cfg b s
  have h2 := mp3Step_tags env cfg b (playlistStep env cfg b s).1
  have h' : spotifyResumeTaken env b
      (mp3Step env cfg b (playlistStep env cfg b s).1).1 := by
    rw [spotifyResumeTaken_congr env b s _
      (by rw [h2.1, h1.1]) (by rw [h2.2, h1.2])]
    exact h
  rw [if_pos h']

theorem handleAdded_bound_effects (env : Env) (cfg : Config) (s : Session)
    (pad : Nat) (identifier : String) (b : Binding)
    (hb : cfg.bindings identifier = some b) :
    (handleAdded env cfg s pad identifier).2 =
      (if env.switch_lights then [Effect.switchPad pad BLUE] else []) ++
      [Effect.cancelLightshow] ++
      (handleBound env cfg b pad
        { s with previous_tag := some (s.current_tag.getD identifier),
                 current_tag := some identifier }).2 := by
  unfold handleAdded
  rw [hb]

theorem mem_playlistStep (env : Env) (cfg : Config) (b : Binding) (s : Session)
    (pl : String) (fs : List String) (hpl : b.playlist = some pl)
    (hsh : b.shuffle = false)
    (hfs : env.playlist_files (cfg.mp3_dir ++ "/" ++ pl ++ "/*.mp3") = fs)
    (hne : fs ≠ []) :
    Effect.playerPlaylist fs ∈ (playlistStep env cfg b s).2 := by
  unfold playlistStep playPlaylist startMp3_playlist
  rw [hpl]
  simp [hfs, hne, hsh]

theorem playlistStep_mp3state (env : Env) (cfg : Config) (b : Binding)
    (s : Session) (pl : String) (fs : List String) (hpl : b.playlist = some pl)
    (hfs : env.playlist_files (cfg.mp3_dir ++ "/" ++ pl ++ "/*.mp3") = fs)
    (hne : fs ≠ []) :
    ((playlistStep env cfg b s).1).mp3state = some ("PLAYING") := by
  unfold playlistStep playPlaylist startMp3_playlist
  rw [hpl]
  simp [hfs, hne]

theorem mem_mp3Step (env : Env) (cfg : Config) (b : Binding) (s : Session)
    (f : String) (hm : b.mp3 = some f) (hstate : s.mp3state = some ("PLAYING")) :
    Effect.playerOpen (cfg.mp3_dir ++ f) ∈ (mp3Step env cfg b s).2 := by
  unfold mp3Step playMp3 startMp3_file stopMp3
  rw [hm]
  simp [hstate]

theorem mem_slackEffects (cfg : Config) (b : Binding) (msg : String)
    (hs : b.slack = some msg) :
    Effect.slackPost cfg.slack_hook msg ∈ slackEffects cfg b := by
  simp [slackEffects, hs]

theorem mem_commandEffects (b : Binding) (c : String) (hc : b.command = some c) :
    Effect.runCommand c ∈ commandEffects b := by
  simp [commandEffects, hc]

theorem mem_spotifyCastEffects (env : Env) (b : Binding) (pad : Nat)
    (uri : String) (hu : b.spotify = some uri)
    (ha : env.spotify_activated = true) :
    Effect.spotcast uri (b.position_ms.getD 0) ∈ spotifyCastEffects env b pad := by
  simp [spotifyCastEffects, hu, ha]

theorem mem_disneyEffects (env : Env) (b : Binding) (pad : Nat) (u : String)
    (hu : b.disney = some u) (ha : env.appletv_activated = true) :
    Effect.launchDisney u ∈ disneyEffects env b pad := by
  simp [disneyEffects, hu, ha]

theorem mem_netflixEffects (env : Env) (b : Binding) (pad : Nat) (u : String)
    (hu : b.netflix = some u) (ha : env.appletv_activated = true) :
    Effect.launchNetflix u ∈ netflixEffects env b pad := by
  simp [netflixEffects, hu, ha]

theorem mem_youtubeEffects (env : Env) (b : Binding) (pad : Nat) (u : String)
    (hu : b.youtube = some u) (ha : env.appletv_activated = true) :
    Effect.launchYoutube u ∈ youtubeEffects env b pad := by
  simp [youtubeEffects, hu, ha]

theorem mem_airplayEffects (env : Env) (b : Binding) (pad : Nat) (f : String)
    (hf : b.airplay = some f) :
    Effect.homepodStream f b.homepod ∈ airplayEffects env b pad := by
  simp [airplayEffects, hf]

theorem mem_xboxEffects (env : Env) (b : Binding) (pad : Nat)
    (hx : b.xbox = true) :
    Effect.xboxPowerOn ∈ xboxEffects env b pad := by
  simp [xboxEffects, hx]

theorem playMp3_resume (env : Env) (s : Session) (filename mp3_dir : String)
    (hpc : s.previous_tag = s.current_tag) (hp : s.mp3state = some ("PAUSED"))
    (hr : 1/10 ≤ s.mp3_duration - s.mp3elapsed) :
    playMp3 env s filename mp3_dir =
      (s, [Effect.spotifyPause, Effect.playerPlay,
           Effect.startLightshow ((s.mp3_duration - s.mp3elapsed) * 1000)]) := by
  unfold playMp3
  rw [if_pos ⟨hpc, hp⟩]
  dsimp only
  rw [if_pos hr]

theorem pauseMp3_of_paused (s : Session) (hp : s.mp3state = some ("PAUSED")) :
    pauseMp3 s = (s, []) := by
  unfold pauseMp3
  rw [if_neg (by rw [hp]; simp)]

/-! ## Claim C4 -/

/-- C4 counterexample: with `previous_tag = current_tag` and state Paused but
remaining time 0.05 s (below the 0.1 s threshold), `playMp3` does NOT start a
Lightshow for the remaining duration: it falls through to the new-play path,
reopening the file from the start and lighting for the full track length. -/
theorem C4_counterexample :
    playMp3 envC4 sC4 ("f.mp3") ("m/") =
      (Session.mk (some ("X")) (some ("X")) (some ("PLAYING")) 30 (1999/20),
       [Effect.spotifyPause, Effect.playerPlay, Effect.playerOpen ("m/f.mp3"),
        Effect.playerPlay, Effect.startLightshow 30000]) ∧
    Effect.startLightshow 50 ∉ (playMp3 envC4 sC4 ("f.mp3") ("m/")).2 ∧
    Effect.playerOpen ("m/f.mp3") ∈ (playMp3 envC4 sC4 ("f.mp3") ("m/")).2 := by
  have h : playMp3 envC4 sC4 ("f.mp3") ("m/") =
      (Session.mk (some ("X")) (some ("X")) (some ("PLAYING")) 30 (1999/20),
       [Effect.spotifyPause, Effect.playerPlay, Effect.playerOpen ("m/f.mp3"),
        Effect.playerPlay, Effect.startLightshow 30000]) := by
    norm_num [playMp3, stopMp3, startMp3_file, envC4, sC4]
    all_goals decide
  refine ⟨h, ?_, ?_⟩
  · rw [h]
    intro hmem
    simp at hmem
  · rw [h]
    simp

/-- C4 amended: when a tag is re-added with `previous_tag = current_tag`,
local playback Paused, AND at least 0.1 s of the track remaining, `playMp3`
resumes the paused player and starts a Lightshow for exactly the remaining
duration (`mp3_duration - mp3elapsed`, in milliseconds), leaving the session
state untouched; with less than 0.1 s remaining it instead restarts the track
from the beginning. -/
theorem C4_amended_resume (env : Env) (s : Session) (filename mp3_dir : String)
    (hpc : s.previous_tag = s.current_tag) (hp : s.mp3state = some ("PAUSED"))
    (hr : 1/10 ≤ s.mp3_duration - s.mp3elapsed) :
    playMp3 env s filename mp3_dir =
      (s, [Effect.spotifyPause, Effect.playerPlay,
           Effect.startLightshow ((s.mp3_duration - s.mp3elapsed) * 1000)]) :=
  playMp3_resume env s filename mp3_dir hpc hp hr

/-- Witness for the amended C4 at a session with 60 s remaining. -/
theorem C4_amended_resume_witness :
    playMp3 envC4 sC4w ("f.mp3") ("m/") =
      (sC4w, [Effect.spotifyPause, Effect.playerPlay,
              Effect.startLightshow ((sC4w.mp3_duration - sC4w.mp3elapsed) * 1000)]) :=
  C4_amended_resume envC4 sC4w ("f.mp3") ("m/") rfl rfl (by norm_num [sC4w])

/-! ## Claim C10 -/

/-- C10: on the resume branch of `playMp3` (tags equal, state `'PAUSED'`,
at least 0.1 s remaining) the session state is returned unchanged, so
`mp3state` stays `'PAUSED'` even though the player is playing again; a
subsequent `pauseMp3` is therefore a no-op, and a Removed event processed in
the resulting state never emits a player-pause call. -/
theorem C10_resume_keeps_paused (env : Env) (s : Session)
    (filename mp3_dir : String)
    (hpc : s.previous_tag = s.current_tag) (hp : s.mp3state = some ("PAUSED"))
    (hr : 1/10 ≤ s.mp3_duration - s.mp3elapsed) :
    (playMp3 env s filename mp3_dir).1 = s ∧
    ((playMp3 env s filename mp3_dir).1).mp3state = some ("PAUSED") ∧
    pauseMp3 ((playMp3 env s filename mp3_dir).1) =
      ((playMp3 env s filename mp3_dir).1, []) ∧
    ∀ identifier,
      Effect.playerPause ∉
        (handleRemoved env ((playMp3 env s filename mp3_dir).1) identifier).2 := by
  have h1 : (playMp3 env s filename mp3_dir).1 = s := by
    rw [playMp3_resume env s filename mp3_dir hpc hp hr]
  refine ⟨h1, by rw [h1]; exact hp, by rw [h1, pauseMp3_of_paused s hp], ?_⟩
  intro identifier
  rw [h1]
  unfold handleRemoved
  split
  · rw [pauseMp3_of_paused s hp]
    dsimp only
    split <;> simp
  · simp

/-- Witness for C10: the no-pause behaviour at a concrete paused session. -/
theorem C10_resume_keeps_paused_witness :
    (playMp3 envC4 sC10 ("g.mp3") ("m/")).1 = sC10 ∧
    Effect.playerPause ∉
      (handleRemoved envC4 ((playMp3 envC4 sC10 ("g.mp3") ("m/")).1) ("Y")).2 := by
  have h := C10_resume_keeps_paused envC4 sC10 ("g.mp3") ("m/") rfl rfl
    (by norm_num [sC10])
  exact ⟨h.1, h.2.2.2 ("Y")⟩

/-! ## Claim C5 -/

/-- C5 counterexample: the binding has both `spotify` and `disney`, the Apple
TV provider is activated, yet re-adding the current tag takes the Spotify
resume branch, whose `continue` skips the Disney field entirely — no
`launchDisney` call is emitted. -/
theorem C5_counterexample :
    bC5x.disney = some ("du") ∧ envC5x.appletv_activated = true ∧
    (handleAdded envC5x cfgC5x sC5x 1 ("X")).2 =
      [Effect.cancelLightshow, Effect.spotifyResume, Effect.startLightshow 5000] ∧
    Effect.launchDisney ("du") ∉ (handleAdded envC5x cfgC5x sC5x 1 ("X")).2 := by
  refine ⟨rfl, rfl, by decide, by decide⟩

/-- C5 amended: all binding fields fire independently EXCEPT through the
Spotify resume branch: whenever the Spotify resume branch is not taken
(Spotify field absent, or Spotify not activated, or the re-added tag is not
the current one), every later present field of the binding is evaluated and
acted upon — Disney, Netflix and YouTube when the Apple TV provider is
activated, and AirPlay and Xbox unconditionally. -/
theorem C5_amended (env : Env) (cfg : Config) (s : Session) (pad : Nat)
    (identifier : String) (b : Binding)
    (hb : cfg.bindings identifier = some b)
    (hnr : ¬ spotifyResumeTaken env b
      { s with previous_tag := some (s.current_tag.getD identifier),
               current_tag := some identifier }) :
    (∀ u, b.disney = some u → env.appletv_activated = true →
      Effect.launchDisney u ∈ (handleAdded env cfg s pad identifier).2) ∧
    (∀ u, b.netflix = some u → env.appletv_activated = true →
      Effect.launchNetflix u ∈ (handleAdded env cfg s pad identifier).2) ∧
    (∀ u, b.youtube = some u → env.appletv_activated = true →
      Effect.launchYoutube u ∈ (handleAdded env cfg s pad identifier).2) ∧
    (∀ f, b.airplay = some f →
      Effect.homepodStream f b.homepod ∈ (handleAdded env cfg s pad identifier).2) ∧
    (b.xbox = true →
      Effect.xboxPowerOn ∈ (handleAdded env cfg s pad identifier).2) := by
  rw [handleAdded_bound_effects env cfg s pad identifier b hb,
    handleBound_effects_of_not_resume env cfg b pad _ hnr]
  refine ⟨?_, ?_, ?_, ?_, ?_⟩
  · intro u hu ha
    have hm := mem_disneyEffects env b pad u hu ha
    simp only [List.mem_append]
    tauto
  · intro u hu ha
    have hm := mem_netflixEffects env b pad u hu ha
    simp only [List.mem_append]
    tauto
  · intro u hu ha
    have hm := mem_youtubeEffects env b pad u hu ha
    simp only [List.mem_append]
    tauto
  · intro f hf
    have hm := mem_airplayEffects env b pad f hf
    simp only [List.mem_append]
    tauto
  · intro hx
    have hm := mem_xboxEffects env b pad hx
    simp only [List.mem_append]
    tauto

/-- Witness for the amended C5: with Spotify not activated, the Disney and
Xbox fields of the same binding both fire. -/
theorem C5_amended_witness :
    Effect.launchDisney ("du") ∈
      (handleAdded envC5w cfgC5w initialSession 1 ("W")).2 ∧
    Effect.xboxPowerOn ∈
      (handleAdded envC5w cfgC5w initialSession 1 ("W")).2 := by
  have h := C5_amended envC5w cfgC5w initialSession 1 ("W") bC5w rfl
    (by intro h; unfold spotifyResumeTaken at h; simp [envC5w] at h)
  exact ⟨h.1 ("du") rfl rfl, h.2.2.2.2 rfl⟩

/-! ## Claim C6 -/

/-- Dispatch-order helper: when the Spotify resume branch is not taken, one
representative effect of each present binding field occurs in the bound
dispatch, in the source order playlist → mp3 → slack → command → spotify
cast → disney → netflix → youtube → airplay → xbox. -/
theorem handleBound_order (env : Env) (cfg : Config) (b : Binding) (pad : Nat)
    (s0 : Session)
    (hnr : ¬ spotifyResumeTaken env b s0)
    (pl f msg c uri du nu yu af : String) (fs : List String)
    (hpl : b.playlist = some pl) (hsh : b.shuffle = false)
    (hfs : env.playlist_files (cfg.mp3_dir ++ "/" ++ pl ++ "/*.mp3") = fs)
    (hne : fs ≠ []) (hm : b.mp3 = some f)
    (hsl : b.slack = some msg) (hc : b.command = some c)
    (hsp : b.spotify = some uri) (hact : env.spotify_activated = true)
    (hdis : b.disney = some du) (hnet : b.netflix = some nu)
    (hyou : b.youtube = some yu) (hatv : env.appletv_activated = true)
    (hair : b.airplay = some af) (hxb : b.xbox = true) :
    List.Sublist
    [Effect.playerPlaylist fs, Effect.playerOpen (cfg.mp3_dir ++ f),
     Effect.slackPost cfg.slack_hook msg, Effect.runCommand c,
     Effect.spotcast uri (b.position_ms.getD 0),
     Effect.launchDisney du, Effect.launchNetflix nu, Effect.launchYoutube yu,
     Effect.homepodStream af b.homepod, Effect.xboxPowerOn]
      ((handleBound env cfg b pad s0).2) := by
  rw [handleBound_effects_of_not_resume env cfg b pad s0 hnr]
  simp only [List.append_assoc]
  have h1 := List.singleton_sublist.mpr
    (mem_playlistStep env cfg b s0 pl fs hpl hsh hfs hne)
  have hst := playlistStep_mp3state env cfg b s0 pl fs hpl hfs hne
  have h2 := List.singleton_sublist.mpr
    (mem_mp3Step env cfg b (playlistStep env cfg b s0).1 f hm hst)
  have h3 := List.singleton_sublist.mpr (mem_slackEffects cfg b msg hsl)
  have h4 := List.singleton_sublist.mpr (mem_commandEffects b c hc)
  have h5 := List.singleton_sublist.mpr
    (mem_spotifyCastEffects env b pad uri hsp hact)
  have h6 := List.singleton_sublist.mpr (mem_disneyEffects env b pad du hdis hatv)
  have h7 := List.singleton_sublist.mpr (mem_netflixEffects env b pad nu hnet hatv)
  have h8 := List.singleton_sublist.mpr (mem_youtubeEffects env b pad yu hyou hatv)
  have h9 := List.singleton_sublist.mpr (mem_airplayEffects env b pad af hair)
  have h10 := List.singleton_sublist.mpr (mem_xboxEffects env b pad hxb)
  exact h1.append (h2.append (h3.append (h4.append (h5.append (h6.append
    (h7.append (h8.append (h9.append h10))))))))

/-- C6 amended: for a binding with all fields present (and the resume branch
not taken, e.g. because a different tag is current), the dispatch emits a
representative effect of every field in the fixed order playlist, then mp3,
then slack notification, then operator command, then streaming cast, then the
Disney / Netflix / YouTube deep links, then speaker streaming, then
game-console control — i.e. the spec's order with its first two entries
swapped. -/
theorem C6_amended (env : Env) (cfg : Config) (s : Session) (pad : Nat)
    (identifier j : String) (b : Binding)
    (pl f msg c uri du nu yu af : String) (fs : List String)
    (hb : cfg.bindings identifier = some b)
    (hcur : s.current_tag = some j) (hj : j ≠ identifier)
    (hpl : b.playlist = some pl) (hsh : b.shuffle = false)
    (hfs : env.playlist_files (cfg.mp3_dir ++ "/" ++ pl ++ "/*.mp3") = fs)
    (hne : fs ≠ []) (hm : b.mp3 = some f)
    (hsl : b.slack = some msg) (hc : b.command = some c)
    (hsp : b.spotify = some uri) (hact : env.spotify_activated = true)
    (hdis : b.disney = some du) (hnet : b.netflix = some nu)
    (hyou : b.youtube = some yu) (hatv : env.appletv_activated = true)
    (hair : b.airplay = some af) (hxb : b.xbox = true) :
    List.Sublist
    [Effect.playerPlaylist fs, Effect.playerOpen (cfg.mp3_dir ++ f),
     Effect.slackPost cfg.slack_hook msg, Effect.runCommand c,
     Effect.spotcast uri (b.position_ms.getD 0),
     Effect.launchDisney du, Effect.launchNetflix nu, Effect.launchYoutube yu,
     Effect.homepodStream af b.homepod, Effect.xboxPowerOn]
      ((handleAdded env cfg s pad identifier).2) := by
  have hnr : ¬ spotifyResumeTaken env b
      { s with previous_tag := some (s.current_tag.getD identifier),
               current_tag := some identifier } := by
    intro h
    unfold spotifyResumeTaken at h
    rcases h with ⟨-, -, hcp⟩
    simp only [Option.getD, hcur, Option.some.injEq] at hcp
    exact hj hcp.symm
  rw [handleAdded_bound_effects env cfg s pad identifier b hb]
  exact (handleBound_order env cfg b pad _ hnr pl f msg c uri du nu yu af fs
    hpl hsh hfs hne hm hsl hc hsp hact hdis hnet hyou hatv hair hxb).trans
    (List.sublist_append_right _ _)

/-- C6 counterexample: for a binding with both `mp3` and `playlist`, the
dispatch evaluates the playlist FIRST: the `playerPlaylist` effect occurs at a
strictly smaller index of the emitted trace than the mp3 `playerOpen` effect,
refuting the claimed "local mp3 first, then local playlist" order. -/
theorem C6_counterexample :
    (handleAdded envC6 cfgC6 initialSession 0 ("X")).2 =
      [Effect.cancelLightshow, Effect.spotifyPause,
       Effect.playerPlaylist ["a.mp3", "b.mp3"], Effect.startLightshow 4000,
       Effect.spotifyPause, Effect.playerOpen ("m/f.mp3"), Effect.playerPlay,
       Effect.startLightshow 2000] ∧
    List.indexOf (Effect.playerPlaylist ["a.mp3", "b.mp3"])
        [Effect.cancelLightshow, Effect.spotifyPause,
         Effect.playerPlaylist ["a.mp3", "b.mp3"], Effect.startLightshow 4000,
         Effect.spotifyPause, Effect.playerOpen ("m/f.mp3"), Effect.playerPlay,
         Effect.startLightshow 2000] <
      List.indexOf (Effect.playerOpen ("m/f.mp3"))
        [Effect.cancelLightshow, Effect.spotifyPause,
         Effect.playerPlaylist ["a.mp3", "b.mp3"], Effect.startLightshow 4000,
         Effect.spotifyPause, Effect.playerOpen ("m/f.mp3"), Effect.playerPlay,
         Effect.startLightshow 2000] := by
  constructor
  · simp +decide [handleAdded, handleBound, playlistStep, mp3Step, playPlaylist,
      playMp3, startMp3_playlist, startMp3_file, stopMp3, dispatchTail,
      spotifyResumeTaken, spotifyCastEffects, disneyEffects, netflixEffects,
      youtubeEffects, airplayEffects, xboxEffects, slackEffects, commandEffects,
      envC6, cfgC6, bC6, initialSession, Binding.empty]
    norm_num
  · decide

/-- Witness for the amended C6: the full representative effect chain is a
sublist of the dispatch trace at a concrete all-fields binding. -/
theorem C6_amended_witness :
    List.Sublist
      [Effect.playerPlaylist ["a.mp3"],
       Effect.playerOpen (cfgC6w.mp3_dir ++ "f.mp3"),
       Effect.slackPost cfgC6w.slack_hook ("msg"), Effect.runCommand ("cmd"),
       Effect.spotcast ("uri") (bC6w.position_ms.getD 0),
       Effect.launchDisney ("du"), Effect.launchNetflix ("nu"),
       Effect.launchYoutube ("yu"), Effect.homepodStream ("af") bC6w.homepod,
       Effect.xboxPowerOn]
      ((handleAdded envC6w cfgC6w sC6w 2 ("X")).2) :=
  C6_amended envC6w cfgC6w sC6w 2 ("X") ("Z") bC6w ("pl") ("f.mp3") ("msg")
    ("cmd") ("uri") ("du") ("nu") ("yu") ("af") ["a.mp3"] rfl rfl (by decide)
    rfl rfl rfl (by decide) rfl rfl rfl rfl rfl rfl rfl rfl rfl rfl rfl

/-! ## Claim C7 -/

/-- C7 counterexample: an `added` event for an unknown identifier leaves the
session state untouched (as claimed) but does NOT limit itself to the unknown
red pad colour: with the lightshow toggle on, it first paints the pad blue
and then cancels-and-joins any running lightshow before the red feedback, so
the trace is not just the single "unknown" pad-colour command, and a running
lightshow IS disturbed. -/
theorem C7_counterexample :
    handleAdded envC7 cfgC7 sC7 2 ("dead") =
      (sC7, [Effect.switchPad 2 BLUE, Effect.cancelLightshow,
             Effect.switchPad 2 RED]) ∧
    (handleAdded envC7 cfgC7 sC7 2 ("dead")).2 ≠ [Effect.switchPad 2 RED] ∧
    Effect.cancelLightshow ∈ (handleAdded envC7 cfgC7 sC7 2 ("dead")).2 := by
  refine ⟨by decide, by decide, by decide⟩

/-- C7 amended: an `added` event whose identifier has no binding never
mutates the session state (in particular `current_tag` and `previous_tag`
are untouched), and its effects are exactly: the standard blue added-tag
feedback when the lightshow toggle is on, then the cancel-and-join of any
running lightshow, then the red "unknown" pad colour — no other effect. -/
theorem C7_amended (env : Env) (cfg : Config) (s : Session) (pad : Nat)
    (identifier : String) (hb : cfg.bindings identifier = none) :
    handleAdded env cfg s pad identifier =
      (s, (if env.switch_lights then [Effect.switchPad pad BLUE] else []) ++
        [Effect.cancelLightshow, Effect.switchPad pad RED]) :=
  handleAdded_unbound env cfg s pad identifier hb

/-- Witness for the amended C7 at a concrete unknown identifier. -/
theorem C7_amended_witness :
    handleAdded envC7 cfgC7 sC7 0 ("beef") =
      (sC7, [Effect.switchPad 0 BLUE, Effect.cancelLightshow,
             Effect.switchPad 0 RED]) := by
  have h := C7_amended envC7 cfgC7 sC7 0 ("beef") rfl
  exact h.trans (by decide)

/-! ## Claim C8 -/

/-- C8: in every state reachable by running the loop from startup,
`current_tag` is `none` exactly until the first bound `added` event is
processed; a `removed` event (and a playback-monitor update) never changes
`current_tag`; once `current_tag` holds an identifier every step leaves it
holding some identifier; and any step that changes `current_tag` at all is an
`added` event that leaves an identifier in it. -/
theorem C8_current_tag_invariant (env : Env) (cfg : Config) :
    (∀ events, (run env cfg events).current_tag = none ↔
        ∀ e ∈ events, ¬ isBoundAdded cfg e) ∧
    (∀ s pad identifier,
      ((step env cfg s (Event.removed pad identifier)).1).current_tag =
        s.current_tag) ∧
    (∀ s st el,
      ((step env cfg s (Event.monitor st el)).1).current_tag = s.current_tag) ∧
    (∀ s e x, s.current_tag = some x →
      ∃ y, ((step env cfg s e).1).current_tag = some y) ∧
    (∀ s e, ((step env cfg s e).1).current_tag ≠ s.current_tag →
      (∃ pad identifier, e = Event.added pad identifier) ∧
      ∃ y, ((step env cfg s e).1).current_tag = some y) := by
  refine ⟨?_, ?_, ?_, ?_, ?_⟩
  · intro events
    simpa [run, initialSession] using
      foldl_current_none_iff env cfg events initialSession
  · intro s pad identifier
    exact (handleRemoved_state env s identifier).1
  · intro s st el
    rfl
  · intro s e x hx
    cases e with
    | added pad identifier =>
      cases hb : cfg.bindings identifier with
      | none =>
        rw [show (step env cfg s (Event.added pad identifier)).1 = s from
          congrArg Prod.fst (handleAdded_unbound env cfg s pad identifier hb)]
        exact ⟨x, hx⟩
      | some b =>
        rcases handleAdded_bound_current env cfg s pad identifier b hb with h | h
        · exact ⟨identifier, h⟩
        · exact ⟨s.current_tag.getD identifier, h⟩
    | removed pad identifier =>
      refine ⟨x, ?_⟩
      show (handleRemoved env s identifier).1.current_tag = some x
      rw [(handleRemoved_state env s identifier).1]
      exact hx
    | monitor st el =>
      exact ⟨x, hx⟩
  · intro s e hch
    cases e with
    | added pad identifier =>
      refine ⟨⟨pad, identifier, rfl⟩, ?_⟩
      cases hb : cfg.bindings identifier with
      | none =>
        exact absurd (by
          rw [show (step env cfg s (Event.added pad identifier)).1 = s from
            congrArg Prod.fst (handleAdded_unbound env cfg s pad identifier hb)])
          hch
      | some b =>
        rcases handleAdded_bound_current env cfg s pad identifier b hb with h | h
        · exact ⟨identifier, h⟩
        · exact ⟨s.current_tag.getD identifier, h⟩
    | removed pad identifier =>
      exact absurd ((handleRemoved_state env s identifier).1) hch
    | monitor st el =>
      exact absurd rfl hch

/-- Witness for C8: the reachability iff at a one-event run, and the
never-cleared property at a session whose current tag is `"A"`. -/
theorem C8_current_tag_invariant_witness :
    ((run envC7 cfgC8 [Event.added 1 ("X")]).current_tag = none ↔
      ∀ e ∈ [Event.added 1 ("X")], ¬ isBoundAdded cfgC8 e) ∧
    (∃ y, ((step envC7 cfgC8 (Session.mk (some ("A")) none none 0 0)
      (Event.removed 0 ("A"))).1).current_tag = some y) := by
  have h := C8_current_tag_invariant envC7 cfgC8
  exact ⟨h.1 [Event.added 1 ("X")],
    h.2.2.2.1 (Session.mk (some ("A")) none none 0 0)
      (Event.removed 0 ("A")) ("A") rfl⟩

/-! ## Claim C9 -/

theorem cancel_not_mem_playlistStep (env : Env) (cfg : Config) (b : Binding)
    (s : Session) :
    Effect.cancelLightshow ∉ (playlistStep env cfg b s).2 := by
  unfold playlistStep playPlaylist startMp3_playlist
  cases b.playlist
  · simp
  · dsimp only
    split <;> simp

theorem cancel_not_mem_mp3Step (env : Env) (cfg : Config) (b : Binding)
    (s : Session) :
    Effect.cancelLightshow ∉ (mp3Step env cfg b s).2 := by
  unfold mp3Step playMp3 startMp3_file stopMp3
  cases b.mp3
  · simp
  · dsimp only
    split
    · split <;> simp
    · simp

theorem cancel_not_mem_slackEffects (cfg : Config) (b : Binding) :
    Effect.cancelLightshow ∉ slackEffects cfg b := by
  unfold slackEffects
  cases b.slack <;> simp

theorem cancel_not_mem_commandEffects (b : Binding) :
    Effect.cancelLightshow ∉ commandEffects b := by
  unfold commandEffects
  cases b.command <;> simp

theorem cancel_not_mem_switchHdmi (env : Env) :
    Effect.cancelLightshow ∉ (switchHdmiToAppleTv env).2 := by
  unfold switchHdmiToAppleTv
  split
  · split
    · simp
    · split <;> simp
  · split <;> simp

theorem cancel_not_mem_spotifyCastEffects (env : Env) (b : Binding) (pad : Nat) :
    Effect.cancelLightshow ∉ spotifyCastEffects env b pad := by
  unfold spotifyCastEffects
  cases b.spotify
  · simp
  · dsimp only
    split
    · split <;> simp
    · simp

theorem cancel_not_mem_disneyEffects (env : Env) (b : Binding) (pad : Nat) :
    Effect.cancelLightshow ∉ disneyEffects env b pad := by
  unfold disneyEffects
  cases b.disney
  · simp
  · dsimp only
    split
    · simp only [List.mem_append, not_or]
      exact ⟨⟨cancel_not_mem_switchHdmi env, by simp⟩, by split <;> simp⟩
    · simp

theorem cancel_not_mem_netflixEffects (env : Env) (b : Binding) (pad : Nat) :
    Effect.cancelLightshow ∉ netflixEffects env b pad := by
  unfold netflixEffects
  cases b.netflix
  · simp
  · dsimp only
    split
    · simp only [List.mem_append, not_or]
      exact ⟨⟨cancel_not_mem_switchHdmi env, by simp⟩, by split <;> simp⟩
    · simp

theorem cancel_not_mem_youtubeEffects (env : Env) (b : Binding) (pad : Nat) :
    Effect.cancelLightshow ∉ youtubeEffects env b pad := by
  unfold youtubeEffects
  cases b.youtube
  · simp
  · dsimp only
    split
    · simp only [List.mem_append, not_or]
      exact ⟨⟨cancel_not_mem_switchHdmi env, by simp⟩, by split <;> simp⟩
    · simp

theorem cancel_not_mem_airplayEffects (env : Env) (b : Binding) (pad : Nat) :
    Effect.cancelLightshow ∉ airplayEffects env b pad := by
  unfold airplayEffects
  cases b.airplay
  · simp
  · dsimp only
    simp only [List.cons_append, List.nil_append, List.mem_cons, not_or]
    exact ⟨by simp, by split <;> simp⟩

theorem cancel_not_mem_xboxEffects (env : Env) (b : Binding) (pad : Nat) :
    Effect.cancelLightshow ∉ xboxEffects env b pad := by
  unfold xboxEffects xboxNavKeys
  cases happ : b.xbox_app <;> split_ifs <;> simp [happ]

theorem cancel_not_mem_dispatchTail (env : Env) (b : Binding) (pad : Nat)
    (s : Session) :
    Effect.cancelLightshow ∉ (dispatchTail env b pad s).2 := by
  unfold dispatchTail
  split
  · simp
  · dsimp only
    simp only [List.mem_append, not_or]
    exact ⟨⟨⟨⟨⟨cancel_not_mem_spotifyCastEffects env b pad,
      cancel_not_mem_disneyEffects env b pad⟩,
      cancel_not_mem_netflixEffects env b pad⟩,
      cancel_not_mem_youtubeEffects env b pad⟩,
      cancel_not_mem_airplayEffects env b pad⟩,
      cancel_not_mem_xboxEffects env b pad⟩

theorem cancel_not_mem_handleBound (env : Env) (cfg : Config) (b : Binding)
    (pad : Nat) (s : Session) :
    Effect.cancelLightshow ∉ (handleBound env cfg b pad s).2 := by
  unfold handleBound
  dsimp only
  simp only [List.mem_append, not_or]
  exact ⟨⟨⟨⟨cancel_not_mem_playlistStep env cfg b s,
    cancel_not_mem_mp3Step env cfg b (playlistStep env cfg b s).1⟩,
    cancel_not_mem_slackEffects cfg b⟩,
    cancel_not_mem_commandEffects b⟩,
    cancel_not_mem_dispatchTail env b pad
      (mp3Step env cfg b (playlistStep env cfg b s).1).1⟩

/-- C9 counterexample: with the lightshow toggle ON (so every
`startLightshow` call spawns a real worker), a single `added` dispatch of a
binding with both `playlist` and `mp3` starts TWO lightshows with no
cancel-and-join between them — the only `cancelLightshow` of the trace
precedes both `startLightshow` effects, so the second lightshow thread is
spawned while the first (3 s) instance is still running, refuting "whenever a
new Lightshow is started the previous one is cancelled and fully joined
first". -/
theorem C9_counterexample :
    envC9.switch_lights = true ∧
    (handleAdded envC9 cfgC9 initialSession 0 ("Y")).2 =
      [Effect.switchPad 0 BLUE, Effect.cancelLightshow, Effect.spotifyPause,
       Effect.playerPlaylist ["c.mp3"], Effect.startLightshow 3000,
       Effect.spotifyPause, Effect.playerOpen ("d/t.mp3"), Effect.playerPlay,
       Effect.startLightshow 3000] ∧
    [Effect.switchPad 0 BLUE, Effect.cancelLightshow, Effect.spotifyPause,
       Effect.playerPlaylist ["c.mp3"], Effect.startLightshow 3000,
       Effect.spotifyPause, Effect.playerOpen ("d/t.mp3"), Effect.playerPlay,
       Effect.startLightshow 3000] =
      [Effect.switchPad 0 BLUE, Effect.cancelLightshow, Effect.spotifyPause,
        Effect.playerPlaylist ["c.mp3"]] ++ [Effect.startLightshow 3000] ++
        [Effect.spotifyPause, Effect.playerOpen ("d/t.mp3"),
         Effect.playerPlay] ++ [Effect.startLightshow 3000] ∧
    Effect.cancelLightshow ∉
      [Effect.spotifyPause, Effect.playerOpen ("d/t.mp3"),
       Effect.playerPlay] := by
  refine ⟨rfl, ?_, rfl, by decide⟩
  simp +decide [handleAdded, handleBound, playlistStep, mp3Step, playPlaylist,
    playMp3, startMp3_playlist, startMp3_file, stopMp3, dispatchTail,
    spotifyResumeTaken, spotifyCastEffects, disneyEffects, netflixEffects,
    youtubeEffects, airplayEffects, xboxEffects, slackEffects, commandEffects,
    envC9, cfgC9, bC9, initialSession, Binding.empty]
  norm_num

/-- C9 amended: the loop body performs the cancel-and-join EXACTLY ONCE per
`added` event, before any `startLightshow` call of that dispatch, and
`startLightshow` itself never cancels: every `added` trace decomposes as a
prefix containing neither `startLightshow` nor `cancelLightshow`, then the
single `cancelLightshow`, then a remainder containing no further
`cancelLightshow`.  Later `startLightshow` calls of the same dispatch
therefore run with no cancellation in between, so two lightshow instances
can be active concurrently. -/
theorem C9_amended (env : Env) (cfg : Config) (s : Session) (pad : Nat)
    (identifier : String) :
    ∃ E1 E2, (handleAdded env cfg s pad identifier).2 =
        E1 ++ Effect.cancelLightshow :: E2 ∧
      (∀ d, Effect.startLightshow d ∉ E1) ∧
      Effect.cancelLightshow ∉ E1 ∧
      Effect.cancelLightshow ∉ E2 := by
  cases hb : cfg.bindings identifier with
  | none =>
    refine ⟨(if env.switch_lights then [Effect.switchPad pad BLUE] else []),
      [Effect.switchPad pad RED], ?_, ?_, ?_, ?_⟩
    · rw [show (handleAdded env cfg s pad identifier).2 =
          (if env.switch_lights then [Effect.switchPad pad BLUE] else []) ++
            [Effect.cancelLightshow, Effect.switchPad pad RED] from
        congrArg Prod.snd (handleAdded_unbound env cfg s pad identifier hb)]
    · intro d
      split <;> simp
    · split <;> simp
    · simp
  | some b =>
    refine ⟨(if env.switch_lights then [Effect.switchPad pad BLUE] else []),
      (handleBound env cfg b pad
        { s with previous_tag := some (s.current_tag.getD identifier),
                 current_tag := some identifier }).2, ?_, ?_, ?_, ?_⟩
    · rw [handleAdded_bound_effects env cfg s pad identifier b hb]
      simp
    · intro d
      split <;> simp
    · split <;> simp
    · exact cancel_not_mem_handleBound env cfg b pad
        { s with previous_tag := some (s.current_tag.getD identifier),
                 current_tag := some identifier }

/-- Witness for the amended C9 at a concrete bound dispatch. -/
theorem C9_amended_witness :
    ∃ E1 E2, (handleAdded envC9 cfgC9 initialSession 1 ("Y")).2 =
        E1 ++ Effect.cancelLightshow :: E2 ∧
      (∀ d, Effect.startLightshow d ∉ E1) ∧
      Effect.cancelLightshow ∉ E1 ∧
      Effect.cancelLightshow ∉ E2 :=
  C9_amended envC9 cfgC9 initialSession 1 ("Y")

end Musicfig
